import Mathlib

/-!
Verification development for a small recipe-generation backend
(`src/main.py`).  The service builds a language-specific prompt from an
ingredient list, performs one HTTP POST to a generative-language API, and
translates every upstream failure into one of five caller-facing error
categories.  The definitions below are a shallow embedding of the two
relevant functions, `send_to_gemini` (lines 37-69) and `generate_recipe`
(lines 82-126), together with the pydantic request model `RecipeRequest`
(lines 77-79).
-/

set_option maxRecDepth 10000

namespace AiChef

/-- JSON values, as decoded by `response.json()` in Python. -/
inductive Json where
  | null
  | bool (b : Bool)
  | num (n : Int)
  | str (s : String)
  | arr (xs : List Json)
  | obj (fields : List (String × Json))

/-- Python exception kinds that can arise while decoding and subscripting
the upstream JSON body.  `keyError` and `indexError` are the only two the
source catches on the success path (line 67); `typeError` arises from
subscripting a non-container, `jsonDecodeError` from `response.json()` on a
body that is not valid JSON. -/
inductive PyExc where
  | keyError
  | indexError
  | typeError
  | jsonDecodeError
deriving DecidableEq

/-- Python subscripting `j[k]` with a string key `k`.  Dictionaries look the
key up (`KeyError` when absent); every other value raises `TypeError`. -/
def pyGetKey (j : Json) (k : String) : Except PyExc Json :=
  match j with
  | .obj fields =>
    match fields.lookup k with
    | some v => .ok v
    | none => .error .keyError
  | _ => .error .typeError

/-- Python subscripting `j[i]` with an integer index `i`.  Lists and strings
index positionally (`IndexError` when out of range; a string yields the
one-character string).  A JSON-decoded dictionary has only string keys, so an
integer subscript raises `KeyError`.  Every other value raises `TypeError`. -/
def pyGetIndex (j : Json) (i : Nat) : Except PyExc Json :=
  match j with
  | .arr xs =>
    match xs.get? i with
    | some v => .ok v
    | none => .error .indexError
  | .str s =>
    match s.data.get? i with
    | some c => .ok (.str (String.mk [c]))
    | none => .error .indexError
  | .obj _ => .error .keyError
  | _ => .error .typeError

/-- Line 50 of the source: the extraction
`data["candidates"][0]["content"]["parts"][0]["text"]`. -/
def extractRecipeText (data : Json) : Except PyExc Json := do
  let c ← pyGetKey data "candidates"
  let c0 ← pyGetIndex c 0
  let ct ← pyGetKey c0 "content"
  let p ← pyGetKey ct "parts"
  let p0 ← pyGetIndex p 0
  pyGetKey p0 "text"

/-- The five caller-facing failure categories of the spec taxonomy (§7),
one per `raise HTTPException` site in `send_to_gemini`. -/
inductive FailureCategory where
  | serviceOverloaded
  | upstreamMisconfigured
  | upstreamError
  | upstreamUnreachable
  | upstreamBadResponse
deriving DecidableEq

/-- A categorized failure: the `HTTPException` raised by the source, labelled
with the taxonomy category of the raise site that produced it. -/
structure Failure where
  category : FailureCategory
  status_code : Nat
  detail : String

/-- Detail string of the 503 raised for upstream status 429 (line 57). -/
def detailOverloaded : String :=
  "Le service d\x27analyse IA est surchargé. Veuillez réessayer plus tard."

/-- Detail string of the 500 raised for upstream status 400/401/403 (line 60). -/
def detailMisconfigured : String :=
  "Problème de configuration interne avec le service d\x27analyse IA."

/-- Detail string of the 502 raised for any other non-2xx status (line 62). -/
def detailUpstreamError : String :=
  "Le service d\x27analyse IA externe rencontre un problème."

/-- Detail string of the 504 raised on `httpx.RequestError` (line 66). -/
def detailUnreachable : String :=
  "Impossible de joindre le service d\x27analyse IA. Vérifiez votre connexion."

/-- Detail string of the 500 raised on `KeyError` or `IndexError` (line 69). -/
def detailBadResponse : String :=
  "La réponse du service d\x27analyse IA est dans un format inattendu."

/-- The failure raised at line 56: status 429 maps to a 503. -/
def overloadedFailure : Failure :=
  ⟨.serviceOverloaded, 503, detailOverloaded⟩

/-- The failure raised at line 59: status 400/401/403 maps to a 500. -/
def misconfiguredFailure : Failure :=
  ⟨.upstreamMisconfigured, 500, detailMisconfigured⟩

/-- The failure raised at line 62: any other non-2xx status maps to a 502. -/
def upstreamErrorFailure : Failure :=
  ⟨.upstreamError, 502, detailUpstreamError⟩

/-- The failure raised at line 65: `httpx.RequestError` maps to a 504. -/
def unreachableFailure : Failure :=
  ⟨.upstreamUnreachable, 504, detailUnreachable⟩

/-- The failure raised at line 68: `KeyError`/`IndexError` maps to a 500. -/
def badResponseFailure : Failure :=
  ⟨.upstreamBadResponse, 500, detailBadResponse⟩

/-- An upstream HTTP response: its status code and the result of decoding its
body as JSON (`none` when the body is not valid JSON, in which case
`response.json()` raises). -/
structure HttpResponse where
  status : Nat
  body : Option Json

/-- Outcome of the single `client.post` attempt: a response was received, the
60-second total timeout expired (`httpx.TimeoutException`, a subclass of
`httpx.RequestError`), or another network/connection failure occurred
(`httpx.RequestError`). -/
inductive UpstreamOutcome where
  | response (r : HttpResponse)
  | timeoutExpired
  | connectionFailure (msg : String)

/-- The fixed total timeout passed to `httpx.AsyncClient` (line 40). -/
def clientTimeout : Nat := 60

/-- The JSON request payload built at line 39:
`\x7b"contents": [\x7b"parts": [\x7b"text": prompt\x7d]\x7d]\x7d`. -/
def geminiPayload (prompt : String) : Json :=
  .obj [("contents", .arr [.obj [("parts", .arr [.obj [("text", .str prompt)]])]])]

/-- Result of one call to `send_to_gemini`: the extracted text payload, a
raised `HTTPException` from one of the five categorized raise sites, or an
exception that escapes the function uncaught (outside the taxonomy). -/
inductive GeminiResult where
  | ok (v : Json)
  | fail (f : Failure)
  | uncaught (e : PyExc)

/-- Whether `status` counts as a 2xx success for `response.raise_for_status()`
(httpx raises `HTTPStatusError` for every non-2xx status, 3xx included). -/
def is2xx (status : Nat) : Bool :=
  200 ≤ status && status < 300

/-- The status-code cascade of lines 55-62, entered when
`raise_for_status` raised on a non-2xx status. -/
def statusFailure (status : Nat) : Failure :=
  if status = 429 then overloadedFailure
  else if status = 400 ∨ status = 401 ∨ status = 403 then misconfiguredFailure
  else upstreamErrorFailure

/-- Lines 37-69 of the source.  `prompt` is the text sent in the payload;
`outcome` is what the single POST attempt produced.  On a 2xx response the
body is decoded (`jsonDecodeError` escapes uncaught when it is not valid
JSON) and the nested text field is extracted; only `KeyError` and
`IndexError` from the extraction are caught and turned into the
bad-response failure, any other exception escapes. -/
def send_to_gemini (prompt : String) (outcome : UpstreamOutcome) : GeminiResult :=
  let _payload := geminiPayload prompt
  match outcome with
  | .timeoutExpired => .fail unreachableFailure
  | .connectionFailure _ => .fail unreachableFailure
  | .response r =>
    if is2xx r.status then
      match r.body with
      | none => .uncaught .jsonDecodeError
      | some data =>
        match extractRecipeText data with
        | .ok v => .ok v
        | .error .keyError => .fail badResponseFailure
        | .error .indexError => .fail badResponseFailure
        | .error e => .uncaught e
    else .fail (statusFailure r.status)

/-- The two-valued language enumeration of lines 72-74. -/
inductive LanguageEnum where
  | fr
  | en
deriving DecidableEq

/-- The pydantic request model of lines 77-79: a list of strings and a
language tag.  Pydantic imposes no further constraint on `ingredients`. -/
structure RecipeRequest where
  ingredients : List String
  language : LanguageEnum

/-- Raw inbound request fields before pydantic validation. -/
structure RawRequest where
  ingredients : List String
  language : String

/-- Boundary validation of the `language` field: pydantic accepts exactly the
two enumeration values `"fr"` and `"en"`. -/
def parseLanguage : String → Option LanguageEnum
  | "fr" => some .fr
  | "en" => some .en
  | _ => none

/-- Pydantic validation of `RecipeRequest`: the language must be one of the
two enumeration values; the ingredient list carries no constraint (no
minimum length is declared on the `List[str]` field). -/
def validateRecipeRequest (raw : RawRequest) : Option RecipeRequest :=
  match parseLanguage raw.language with
  | some l => some ⟨raw.ingredients, l⟩
  | none => none

/-- Fixed French template text before the ingredient splice (lines 86-88,
after the `.strip()` removed the leading newline and indentation). -/
def frBefore : String :=
  "Tu es un chef cuisinier créatif et passionné. \n    Ton rôle est de créer une recette simple et délicieuse à partir des ingrédients suivants : "

/-- Fixed French template text after the ingredient splice (lines 88-99). -/
def frAfter : String :=
  ".\n\n    Ta réponse doit être au format JSON et contenir les clés suivantes : \n    - nom_recette\n    - description_courte (2 phrases alléchantes)\n    - instructions (une liste d\x27étapes claires)\n\n    Utilise un style pédagogue et encourageant. Utilise du markdown.\n    Réponds en français.\n    N\x27hésite pas à ajouter des conseils ou des astuces pour réussir la recette.\n    Utilise des émojis pour rendre la recette plus engageante."

/-- Fixed English template text before the ingredient splice (lines 101-103,
after the `.strip()`). -/
def enBefore : String :=
  "You\x27re a creative and passionate chef. \n    Your role is to create a simple, delicious recipe using the following ingredients: "

/-- Fixed English template text after the ingredient splice (lines 103-114). -/
def enAfter : String :=
  ".\n\n    Your answer must be in JSON format and contain the following keys:\n    - recipe_name\n    - short_description (2 tantalizing sentences)\n    - instructions (a list of clear steps)\n\n    Use a pedagogical and encouraging style. Use markdown.\n    Respond in English.\n    Feel free to add tips or tricks to make the recipe a success.\n    Use emojis to make the recipe more engaging."

/-- The French prompt (lines 86-99): the stripped f-string with the
comma-joined ingredients spliced in. -/
def prompt_fr (ingredients : String) : String :=
  frBefore ++ ingredients ++ frAfter

/-- The English prompt (lines 101-114). -/
def prompt_en (ingredients : String) : String :=
  enBefore ++ ingredients ++ enAfter

/-- Lines 84 and 118: join the ingredients with `", "` and select the
template by language (`fr` picks the French prompt, anything else the
English one; the enumeration has exactly the two values). -/
def buildPrompt (ingredients : List String) (language : LanguageEnum) : String :=
  let ing := String.intercalate ", " ingredients
  match language with
  | .fr => prompt_fr ing
  | .en => prompt_en ing

/-- The success message returned at line 124. -/
def successMessage : String := "Recette générée avec succès 🎉"

/-- The success body of lines 123-126. -/
structure RecipeResponse where
  message : String
  recipe : Json

/-- Result of one call to the `/generate-recipe` endpoint body. -/
inductive EndpointResult where
  | ok (resp : RecipeResponse)
  | httpError (f : Failure)
  | uncaught (e : PyExc)

/-- Lines 82-126: build the prompt from the validated request, send it
upstream, and wrap the extracted text in the success body; any raised
`HTTPException` or uncaught exception propagates. -/
def generate_recipe (data : RecipeRequest) (outcome : UpstreamOutcome) : EndpointResult :=
  let prompt := buildPrompt data.ingredients data.language
  match send_to_gemini prompt outcome with
  | .ok v => .ok ⟨successMessage, v⟩
  | .fail f => .httpError f
  | .uncaught e => .uncaught e

/-- Category of a `send_to_gemini` result, `none` for success or for an
exception that escaped the taxonomy. -/
def resultCategory : GeminiResult → Option FailureCategory
  | .fail f => some f.category
  | _ => none

/-- The uncaught exception of a `send_to_gemini` result, when there is one. -/
def uncaughtExc : GeminiResult → Option PyExc
  | .uncaught e => some e
  | _ => none

/-- The exception kind of a failed extraction, when it failed. -/
def errKind : Except PyExc Json → Option PyExc
  | .error e => some e
  | .ok _ => none

/-- Whether the character list `p` is a pattern occurring at the head of `l`. -/
def startsWithChars : List Char → List Char → Bool
  | [], _ => true
  | _ :: _, [] => false
  | p :: ps, c :: cs => p == c && startsWithChars ps cs

/-- Whether the character list `p` occurs as a contiguous run inside `l`. -/
def containsChars (p : List Char) : List Char → Bool
  | [] => startsWithChars p []
  | c :: cs => startsWithChars p (c :: cs) || containsChars p cs

/-- Whether `pat` occurs as a substring of `s`. -/
def containsStr (s pat : String) : Bool :=
  containsChars pat.data s.data

end AiChef

namespace AiChef

/-- C1: every upstream response whose status is not 2xx and not 429, 400,
401, or 403 (3xx and 5xx included) produces the `UpstreamError` category,
surfaced as a 502 with a nonempty detail string, and no success payload. -/
theorem C1_other_non2xx_is_upstream_error (prompt : String) (body : Option Json)
    (status : Nat) (h2 : is2xx status = false) (h429 : status ≠ 429)
    (h400 : status ≠ 400) (h401 : status ≠ 401) (h403 : status ≠ 403) :
    send_to_gemini prompt (.response ⟨status, body⟩) = .fail upstreamErrorFailure ∧
    upstreamErrorFailure = ⟨.upstreamError, 502, detailUpstreamError⟩ ∧
    detailUpstreamError ≠ "" := by
  refine ⟨?_, rfl, by decide⟩
  simp [send_to_gemini, h2, statusFailure, h429, h400, h401, h403]

/-- C1 witness: a simulated upstream HTTP 500 (and a 302) map to the 502
upstream-error failure. -/
theorem C1_other_non2xx_is_upstream_error_witness :
    is2xx 500 = false ∧
    send_to_gemini "p" (.response ⟨500, none⟩) = .fail upstreamErrorFailure ∧
    send_to_gemini "p" (.response ⟨302, none⟩) = .fail upstreamErrorFailure :=
  ⟨by decide,
   (C1_other_non2xx_is_upstream_error "p" none 500 (by decide) (by decide)
     (by decide) (by decide) (by decide)).1,
   (C1_other_non2xx_is_upstream_error "p" none 302 (by decide) (by decide)
     (by decide) (by decide) (by decide)).1⟩

/-- C5: every upstream response with status exactly 429 produces the
`ServiceOverloaded` category, surfaced as a 503 with a nonempty detail. -/
theorem C5_status_429_is_overloaded (prompt : String) (body : Option Json)
    (status : Nat) (h : status = 429) :
    send_to_gemini prompt (.response ⟨status, body⟩) = .fail overloadedFailure ∧
    overloadedFailure = ⟨.serviceOverloaded, 503, detailOverloaded⟩ ∧
    detailOverloaded ≠ "" := by
  subst h
  exact ⟨rfl, rfl, by decide⟩

/-- C5 witness: a simulated upstream HTTP 429 maps to the 503 overloaded
failure. -/
theorem C5_status_429_is_overloaded_witness :
    send_to_gemini "p" (.response ⟨429, none⟩) = .fail overloadedFailure :=
  (C5_status_429_is_overloaded "p" none 429 rfl).1

/-- C6: every upstream response with status 400, 401, or 403 produces the
`UpstreamMisconfigured` category, surfaced as a 500 with a nonempty detail. -/
theorem C6_auth_statuses_are_misconfigured (prompt : String) (body : Option Json)
    (status : Nat) (h : status = 400 ∨ status = 401 ∨ status = 403) :
    send_to_gemini prompt (.response ⟨status, body⟩) = .fail misconfiguredFailure ∧
    misconfiguredFailure = ⟨.upstreamMisconfigured, 500, detailMisconfigured⟩ ∧
    detailMisconfigured ≠ "" := by
  refine ⟨?_, rfl, by decide⟩
  rcases h with h | h | h <;> subst h <;> rfl

/-- C6 witness: a simulated upstream HTTP 403 maps to the 500
misconfiguration failure. -/
theorem C6_auth_statuses_are_misconfigured_witness :
    send_to_gemini "p" (.response ⟨403, none⟩) = .fail misconfiguredFailure :=
  (C6_auth_statuses_are_misconfigured "p" none 403 (Or.inr (Or.inr rfl))).1

/-- C7: every network or connection failure with no response received,
including expiry of the fixed 60-second total timeout, produces the
`UpstreamUnreachable` category, surfaced as a 504 with a nonempty detail. -/
theorem C7_no_response_is_unreachable (prompt msg : String) :
    send_to_gemini prompt .timeoutExpired = .fail unreachableFailure ∧
    send_to_gemini prompt (.connectionFailure msg) = .fail unreachableFailure ∧
    clientTimeout = 60 ∧
    unreachableFailure = ⟨.upstreamUnreachable, 504, detailUnreachable⟩ ∧
    detailUnreachable ≠ "" :=
  ⟨rfl, rfl, rfl, rfl, by decide⟩

/-- C9: prompt construction is a deterministic pure function of the
ingredient list and the language tag; identical inputs give byte-identical
prompt strings. -/
theorem C9_prompt_deterministic (i1 i2 : List String) (l1 l2 : LanguageEnum)
    (hi : i1 = i2) (hl : l1 = l2) :
    buildPrompt i1 l1 = buildPrompt i2 l2 := by
  rw [hi, hl]

/-- C9 witness: two identical concrete inputs give the same prompt. -/
theorem C9_prompt_deterministic_witness :
    buildPrompt ["tomato", "basil"] .fr = buildPrompt ["tomato", "basil"] .fr :=
  C9_prompt_deterministic ["tomato", "basil"] ["tomato", "basil"] .fr .fr rfl rfl

end AiChef

namespace AiChef

/-- A pattern occurring in `l2` still occurs after any list is prepended. -/
theorem containsChars_append_right (p l1 l2 : List Char)
    (h : containsChars p l2 = true) : containsChars p (l1 ++ l2) = true := by
  induction l1 with
  | nil => simpa using h
  | cons c cs ih => simp [containsChars, ih]

/-- A pattern occurring in `b` occurs in `a ++ b`. -/
theorem containsStr_append_right (a b pat : String)
    (h : containsStr b pat = true) : containsStr (a ++ b) pat = true := by
  unfold containsStr at h ⊢
  rw [String.data_append]
  exact containsChars_append_right _ _ _ h

/-- A JSON body of the expected upstream success shape, carrying the text
`"Recipe XYZ"` at `candidates[0].content.parts[0].text`. -/
def sampleGoodBody : Json :=
  .obj [("candidates", .arr [.obj [("content",
    .obj [("parts", .arr [.obj [("text", .str "Recipe XYZ")]])])]])]

/-- C2 counterexample: with ingredients `["tomato", "basil", "garlic"]`, the
French prompt contains the English marker `instructions`, so the two marker
sets are not mutually exclusive and the French prompt does not avoid all
English markers. -/
theorem C2_counterexample :
    ¬ (containsStr (buildPrompt ["tomato", "basil", "garlic"] .fr) "recipe_name" = false ∧
       containsStr (buildPrompt ["tomato", "basil", "garlic"] .fr) "short_description" = false ∧
       containsStr (buildPrompt ["tomato", "basil", "garlic"] .fr) "instructions" = false) := by
  decide

/-- C2 amended: for every ingredient list the French prompt contains
`nom_recette`, `description_courte` and `instructions`, and the English
prompt contains `recipe_name`, `short_description` and `instructions`; the
marker `instructions` is shared by both templates, and only the
language-specific markers are exclusive to their template, as witnessed at
the ingredients `["tomato", "basil", "garlic"]`. -/
theorem C2_amended_prompt_markers (ing : List String) :
    containsStr (buildPrompt ing .fr) "nom_recette" = true ∧
    containsStr (buildPrompt ing .fr) "description_courte" = true ∧
    containsStr (buildPrompt ing .fr) "instructions" = true ∧
    containsStr (buildPrompt ing .en) "recipe_name" = true ∧
    containsStr (buildPrompt ing .en) "short_description" = true ∧
    containsStr (buildPrompt ing .en) "instructions" = true ∧
    containsStr (buildPrompt ["tomato", "basil", "garlic"] .fr) "recipe_name" = false ∧
    containsStr (buildPrompt ["tomato", "basil", "garlic"] .fr) "short_description" = false ∧
    containsStr (buildPrompt ["tomato", "basil", "garlic"] .en) "nom_recette" = false ∧
    containsStr (buildPrompt ["tomato", "basil", "garlic"] .en) "description_courte" = false := by
  refine ⟨?_, ?_, ?_, ?_, ?_, ?_, by decide, by decide, by decide, by decide⟩ <;>
    exact containsStr_append_right _ _ _ rfl

/-- C8: for every request and every 2xx upstream response whose JSON body
holds the string `t` at `candidates[0].content.parts[0].text`, the endpoint
succeeds and returns the success message together with `recipe` equal to
exactly `t`, the raw upstream text payload. -/
theorem C8_success_returns_raw_text (req : RecipeRequest) (status : Nat)
    (d : Json) (t : String) (h2 : is2xx status = true)
    (hx : extractRecipeText d = .ok (.str t)) :
    generate_recipe req (.response ⟨status, some d⟩) =
      .ok ⟨successMessage, .str t⟩ := by
  simp [generate_recipe, send_to_gemini, h2, hx]

/-- C8 witness: a 200 response whose body holds `"Recipe XYZ"` at the
expected path yields the success payload exactly `"Recipe XYZ"`. -/
theorem C8_success_returns_raw_text_witness :
    is2xx 200 = true ∧
    extractRecipeText sampleGoodBody = .ok (.str "Recipe XYZ") ∧
    generate_recipe ⟨["tomato"], .en⟩ (.response ⟨200, some sampleGoodBody⟩) =
      .ok ⟨successMessage, .str "Recipe XYZ"⟩ :=
  ⟨rfl, by rfl,
   C8_success_returns_raw_text ⟨["tomato"], .en⟩ 200 sampleGoodBody "Recipe XYZ" rfl (by rfl)⟩

end AiChef

namespace AiChef

/-- A 2xx body whose `candidates` key is bound to a string: the extraction
fails with a `TypeError`, which the source does not catch. -/
def candidatesStringBody : Json :=
  .obj [("candidates", .str "x")]

/-- A 2xx body whose `parts[0]` is not an object: the extraction fails with
a `TypeError`, which the source does not catch. -/
def partsNotObjectBody : Json :=
  .obj [("candidates", .arr [.obj [("content",
    .obj [("parts", .arr [.num 7])])]])]

/-- C3 counterexample: the 2xx body with `candidates` bound to the string
`"x"` does not contain the expected JSON path (the extraction fails, with a
`TypeError`), yet the call does not produce the `UpstreamBadResponse`
category: the exception escapes uncaught. -/
theorem C3_counterexample :
    errKind (extractRecipeText candidatesStringBody) = some .typeError ∧
    ¬ (resultCategory (send_to_gemini "p"
        (.response ⟨200, some candidatesStringBody⟩)) =
       some FailureCategory.upstreamBadResponse) ∧
    uncaughtExc (send_to_gemini "p"
        (.response ⟨200, some candidatesStringBody⟩)) = some .typeError := by
  refine ⟨by rfl, ?_, by rfl⟩
  intro h
  rw [show resultCategory (send_to_gemini "p"
        (.response ⟨200, some candidatesStringBody⟩)) = none from by rfl] at h
  exact Option.noConfusion h

/-- C3 amended: for every 2xx upstream response whose body extraction fails
with a missing key (`KeyError`, for example the key `candidates` absent) or
a missing index (`IndexError`), the call produces the `UpstreamBadResponse`
category, surfaced as a 500 with a nonempty detail string; extraction
failures of other kinds instead escape uncaught. -/
theorem C3_amended_missing_key_or_index (prompt : String) (status : Nat)
    (d : Json) (e : PyExc) (h2 : is2xx status = true)
    (he : extractRecipeText d = .error e)
    (hk : e = .keyError ∨ e = .indexError) :
    send_to_gemini prompt (.response ⟨status, some d⟩) = .fail badResponseFailure ∧
    badResponseFailure = ⟨.upstreamBadResponse, 500, detailBadResponse⟩ ∧
    detailBadResponse ≠ "" := by
  refine ⟨?_, rfl, by decide⟩
  rcases hk with hk | hk <;> subst hk <;> simp [send_to_gemini, h2, he]

/-- C3 amended witness: a 200 response whose JSON body is the empty object
(so the key `candidates` is missing) maps to the 500 bad-response failure. -/
theorem C3_amended_missing_key_or_index_witness :
    is2xx 200 = true ∧
    extractRecipeText (Json.obj []) = .error .keyError ∧
    send_to_gemini "p" (.response ⟨200, some (Json.obj [])⟩) =
      .fail badResponseFailure :=
  ⟨rfl, by rfl,
   (C3_amended_missing_key_or_index "p" 200 (Json.obj []) .keyError rfl (by rfl)
     (Or.inl rfl)).1⟩

/-- C4 counterexample: the inbound request with an empty ingredient list and
language `"fr"` passes pydantic validation, so it is not rejected; it then
reaches prompt construction and the upstream call, and with a well-formed
2xx upstream response the endpoint even returns a success payload. -/
theorem C4_counterexample :
    validateRecipeRequest ⟨[], "fr"⟩ = some ⟨[], LanguageEnum.fr⟩ ∧
    generate_recipe ⟨[], LanguageEnum.fr⟩ (.response ⟨200, some sampleGoodBody⟩) =
      .ok ⟨successMessage, .str "Recipe XYZ"⟩ :=
  ⟨rfl, by rfl⟩

/-- C4 amended: the caller-facing layer does not reject empty ingredient
lists; pydantic validation constrains only the field types and the language
enumeration, so a request with an empty ingredient list and a valid language
is accepted, reaches prompt construction, and the upstream call proceeds
(returning success when the upstream response is well-formed). -/
theorem C4_amended_empty_list_accepted (lang : String) (l : LanguageEnum)
    (hl : parseLanguage lang = some l) :
    validateRecipeRequest ⟨[], lang⟩ = some ⟨[], l⟩ ∧
    generate_recipe ⟨[], l⟩ (.response ⟨200, some sampleGoodBody⟩) =
      .ok ⟨successMessage, .str "Recipe XYZ"⟩ := by
  refine ⟨by simp [validateRecipeRequest, hl], ?_⟩
  cases l <;> rfl

/-- C4 amended witness: the accepted empty-ingredients request at language
`"fr"`. -/
theorem C4_amended_empty_list_accepted_witness :
    parseLanguage "fr" = some LanguageEnum.fr ∧
    validateRecipeRequest ⟨[], "fr"⟩ = some ⟨[], LanguageEnum.fr⟩ :=
  ⟨rfl, (C4_amended_empty_list_accepted "fr" LanguageEnum.fr rfl).1⟩

/-- C10: on the 2xx success-parsing path, exactly the missing-key and
missing-index extraction failures are translated to the bad-response
failure; every other extraction failure escapes uncaught, a body that is
not valid JSON raises an uncaught decode error, and both uncaught outcomes
lie outside the five-category failure taxonomy.  The body with `candidates`
bound to a number and the body whose `parts[0]` is not an object are
concrete 2xx cases that escape with a `TypeError`. -/
theorem C10_only_key_index_errors_caught (prompt : String) (status : Nat)
    (d : Json) (e : PyExc) (h2 : is2xx status = true)
    (he : extractRecipeText d = .error e) :
    (send_to_gemini prompt (.response ⟨status, some d⟩) =
      if e = .keyError ∨ e = .indexError then .fail badResponseFailure
      else .uncaught e) ∧
    (send_to_gemini prompt (.response ⟨status, none⟩) = .uncaught .jsonDecodeError) ∧
    errKind (extractRecipeText partsNotObjectBody) = some .typeError ∧
    uncaughtExc (send_to_gemini prompt (.response ⟨status, some partsNotObjectBody⟩)) =
      some .typeError ∧
    resultCategory (.uncaught e) = none ∧
    resultCategory (.uncaught .jsonDecodeError) = none := by
  refine ⟨?_, by simp [send_to_gemini, h2], by rfl, ?_, rfl, rfl⟩
  · cases e <;> simp [send_to_gemini, h2, he]
  · have hp : extractRecipeText partsNotObjectBody = .error .typeError := by rfl
    simp [send_to_gemini, h2, hp, uncaughtExc]

/-- C10 witness: at status 200, a missing `candidates` key is caught and
mapped to the bad-response failure, while the body whose `parts[0]` is a
number escapes with an uncaught `TypeError`. -/
theorem C10_only_key_index_errors_caught_witness :
    is2xx 200 = true ∧
    extractRecipeText (Json.obj []) = .error .keyError ∧
    send_to_gemini "p" (.response ⟨200, some (Json.obj [])⟩) =
      .fail badResponseFailure ∧
    uncaughtExc (send_to_gemini "p" (.response ⟨200, some partsNotObjectBody⟩)) =
      some .typeError := by
  have h := C10_only_key_index_errors_caught "p" 200 (Json.obj []) .keyError rfl (by rfl)
  refine ⟨rfl, by rfl, ?_, h.2.2.2.1⟩
  have h1 := h.1
  simpa using h1

end AiChef
